import Mathlib

/-!
Verification development for the AMD IBS Toolkit kernel driver core
(driver/ibs-core.c).

The driver's side-effecting kernel calls (per-cpu allocation, character
device registration, class creation, device node creation, NMI handler
registration, workaround engagement, buffer setup) are modelled as an
environment record supplying each call's result, and each function's
behaviour is captured as a pure Lean function returning its C return value,
the final values of the module's global flags, and a trace of the external
actions it performed, in order.  The version-conditional compilation in the
C file is resolved to the modern-kernel branches (LINUX_VERSION_CODE >=
3.15.0), which is the configuration all quoted line numbers refer to; the
version shims only change which kernel API spelling performs an action,
never which actions happen around the hot-plug lock section.
-/

set_option autoImplicit false

/-- The two sampling flavors: micro-op sampling and instruction-fetch
sampling (IBS_OP / IBS_FETCH from ibs-uapi.h). -/
inductive Flavor where
  | IBS_OP
  | IBS_FETCH
deriving DecidableEq, Repr

/-- One externally visible action performed by the driver core: each
constructor names a kernel-API call site in ibs-core.c.  `deviceCreate`
records the result the environment returned for that call, so a trace
distinguishes a successful creation from a failed attempt. -/
inductive Act where
  | startFam17hStaticWorkaround (cpu : Nat)
  | stopFam17hStaticWorkaround (cpu : Nat)
  | allocPercpuOp
  | allocPercpuFetch
  | initWorkaroundStructs
  | initOpDev (cpu : Nat)
  | initFetchDev (cpu : Nat)
  | setupBuffer (flavor : Flavor) (cpu : Nat)
  | initWorkaroundInitialize
  | registerChrdev
  | classCreate
  | setupLvt (cpu : Nat)
  | deviceCreate (flavor : Flavor) (cpu : Nat) (err : Int)
  | deviceDestroy (flavor : Flavor) (cpu : Nat)
  | registerHotcpuNotifier
  | unregisterHotcpuNotifier
  | registerNmiHandler
  | unregisterNmiHandler
  | classDestroy
  | unregisterChrdev
  | freeBuffer (flavor : Flavor) (cpu : Nat)
  | freePercpuFetch
  | freePercpuOp
  | freeWorkaroundStructs
  | disableOpOnCpu (cpu : Nat)
  | disableFetchOnCpu (cpu : Nat)
deriving DecidableEq, Repr

/-- The module's file-scope `static int` flags (ibs-core.c lines 68-87):
the eight capability flags and the three workaround flags.  In C they hold
the raw masked CPUID values (not normalised to 0/1), so they are modelled
as `Nat` and "set" means nonzero. -/
structure Globals where
  ibs_fetch_supported : Nat
  ibs_op_supported : Nat
  ibs_brn_trgt_supported : Nat
  ibs_op_cnt_ext_supported : Nat
  ibs_rip_invalid_chk_supported : Nat
  ibs_op_brn_fuse_supported : Nat
  ibs_fetch_ctl_extd_supported : Nat
  ibs_op_data4_supported : Nat
  workaround_fam10h_err_420 : Nat
  workaround_fam15h_err_718 : Nat
  workaround_fam17h_m01h : Nat
deriving DecidableEq, Repr

/-- All static flags start at 0, as in C. -/
def initialGlobals : Globals :=
  { ibs_fetch_supported := 0
    ibs_op_supported := 0
    ibs_brn_trgt_supported := 0
    ibs_op_cnt_ext_supported := 0
    ibs_rip_invalid_chk_supported := 0
    ibs_op_brn_fuse_supported := 0
    ibs_fetch_ctl_extd_supported := 0
    ibs_op_data4_supported := 0
    workaround_fam10h_err_420 := 0
    workaround_fam15h_err_718 := 0
    workaround_fam17h_m01h := 0 }

/-- Linux `X86_VENDOR_AMD` (arch/x86/include/asm/processor.h). -/
def X86_VENDOR_AMD : Nat := 2

/-- Linux `EINVAL`. -/
def EINVAL : Int := 22

/-- Linux `ENOMEM`. -/
def ENOMEM : Int := 12

/-- The processor facts `check_for_ibs_support` consults: the
`boot_cpu_data` fields it reads, the two CPUID leaves, and the list of
online cpus its `for_each_online_cpu` loop visits. -/
structure ProbeIn where
  x86_vendor : Nat
  x86 : Nat
  x86_model : Nat
  cpuid_ecx_8000_0001 : Nat
  cpuid_eax_8000_001B : Nat
  online_cpus : List Nat
deriving Repr

/-- The tail of `check_for_ibs_support` from line 340 on: read
CPUID_Fn8000_001B EAX, fail unless bit 0 (feature flags valid) is set,
compute the fetch- and op-support flags, fail if both are zero, then fill
in the remaining six capability flags and succeed.  `tr` is the trace
accumulated by the earlier part of the function. -/
def check_ibs_caps (feature_id : Nat) (g : Globals) (tr : List Act) :
    Int × Globals × List Act :=
  if feature_id &&& 1 = 0 then (-EINVAL, g, tr)
  else
    let g := { g with
      ibs_fetch_supported := feature_id &&& (1 <<< 1),
      ibs_op_supported :=
        (feature_id &&& (1 <<< 2)) ||| (feature_id &&& (1 <<< 3)) |||
          (feature_id &&& (1 <<< 4)) }
    if g.ibs_fetch_supported = 0 ∧ g.ibs_op_supported = 0 then (-EINVAL, g, tr)
    else
      ((0 : Int),
       { g with
         ibs_brn_trgt_supported := feature_id &&& (1 <<< 5),
         ibs_op_cnt_ext_supported := feature_id &&& (1 <<< 6),
         ibs_rip_invalid_chk_supported := feature_id &&& (1 <<< 7),
         ibs_op_brn_fuse_supported := feature_id &&& (1 <<< 8),
         ibs_fetch_ctl_extd_supported := feature_id &&& (1 <<< 9),
         ibs_op_data4_supported := feature_id &&& (1 <<< 10) },
       tr)

/-- The two guarded family-workaround flag updates of
`check_for_ibs_support` (ibs-core.c lines 297-309): set the fam10h
erratum-420 flag on family 10h and the fam15h erratum-718 flag on family
15h models 00h-1fh. -/
def apply_family_workarounds (inp : ProbeIn) (g : Globals) : Globals :=
  let g := if inp.x86 = 0x10 then { g with workaround_fam10h_err_420 := 1 } else g
  if inp.x86 = 0x15 ∧ inp.x86_model ≤ 0x1f then
    { g with workaround_fam15h_err_718 := 1 } else g

/-- `check_for_ibs_support` (ibs-core.c lines 277-369): vendor check,
family check, fam10h/fam15h workaround flags, the CPUID_Fn8000_0001 ECX
bit-10 check with the family 17h model 01h escape hatch (which engages the
static workaround on every online cpu instead of failing), then the
capability-flag checks.  Returns the C return value, the final globals,
and the trace of workaround-engine calls made. -/
def check_for_ibs_support (inp : ProbeIn) (g : Globals) :
    Int × Globals × List Act :=
  if inp.x86_vendor ≠ X86_VENDOR_AMD then (-EINVAL, g, [])
  else if inp.x86 < 0x10 ∨ inp.x86 = 0x11 then (-EINVAL, g, [])
  else
    let g := apply_family_workarounds inp g
    if inp.cpuid_ecx_8000_0001 &&& (1 <<< 10) = 0 ∧ g.workaround_fam17h_m01h = 0 then
      if inp.x86 = 0x17 ∧ inp.x86_model = 0x1 then
        check_ibs_caps inp.cpuid_eax_8000_001B
          { g with workaround_fam17h_m01h := 1 }
          (inp.online_cpus.map Act.startFam17hStaticWorkaround)
      else (-EINVAL, g, [])
    else
      check_ibs_caps inp.cpuid_eax_8000_001B g []

/-- Modelled from the spec: the fixed record size of `struct ibs_op`
(ibs-structs.h, which is not among the sources here).  The spec only says
the two flavors have different fixed record layouts; the concrete value is
representative and nothing below depends on it beyond its being distinct
from `sizeof_ibs_fetch`. -/
def sizeof_ibs_op : Nat := 72

/-- Modelled from the spec: the fixed record size of `struct ibs_fetch`
(ibs-structs.h, not among the sources here); distinct from
`sizeof_ibs_op`, as the spec requires different layouts per flavor. -/
def sizeof_ibs_fetch : Nat := 48

/-- The fields of `struct ibs_dev` (ibs-structs.h, not among the sources)
that ibs-core.c writes: identity, the in-use flag, the copied capability
and workaround flags, and — for the hardware-control model used by the
core-down path — whether hardware sampling is currently enabled.  Locks,
wait queues and the ring-buffer pointers are initialisation-only here and
carry no data the core's claims inspect, so they are not represented. -/
structure IbsDev where
  cpu : Nat
  flavor : Flavor
  entry_size : Nat
  in_use : Nat
  sampling_enabled : Bool
  ibs_fetch_supported : Nat
  ibs_op_supported : Nat
  ibs_brn_trgt_supported : Nat
  ibs_op_cnt_ext_supported : Nat
  ibs_rip_invalid_chk_supported : Nat
  ibs_op_brn_fuse_supported : Nat
  ibs_fetch_ctl_extd_supported : Nat
  ibs_op_data4_supported : Nat
  workaround_fam10h_err_420 : Nat
  workaround_fam15h_err_718 : Nat
  workaround_fam17h_m01h : Nat
deriving DecidableEq, Repr

/-- `init_ibs_dev` (ibs-core.c lines 107-132): records the core
identifier, clears the in-use flag, and copies every process-wide
capability and workaround flag into the device.  `g` stands for the
module's globals at call time.  Flavor and entry size are left to the
flavor-specific wrappers, as in C. -/
def init_ibs_dev (g : Globals) (dev : IbsDev) (cpu : Nat) : IbsDev :=
  { dev with
    cpu := cpu
    in_use := 0
    ibs_fetch_supported := g.ibs_fetch_supported
    ibs_op_supported := g.ibs_op_supported
    ibs_brn_trgt_supported := g.ibs_brn_trgt_supported
    ibs_op_cnt_ext_supported := g.ibs_op_cnt_ext_supported
    ibs_rip_invalid_chk_supported := g.ibs_rip_invalid_chk_supported
    ibs_op_brn_fuse_supported := g.ibs_op_brn_fuse_supported
    ibs_fetch_ctl_extd_supported := g.ibs_fetch_ctl_extd_supported
    ibs_op_data4_supported := g.ibs_op_data4_supported
    workaround_fam10h_err_420 := g.workaround_fam10h_err_420
    workaround_fam15h_err_718 := g.workaround_fam15h_err_718
    workaround_fam17h_m01h := g.workaround_fam17h_m01h }

/-- `init_ibs_op_dev` (ibs-core.c lines 134-140): shared initialisation,
then the op flavor and the op record size (`sizeof(struct ibs_op)`). -/
def init_ibs_op_dev (g : Globals) (dev : IbsDev) (cpu : Nat) : IbsDev :=
  let d := init_ibs_dev g dev cpu
  { d with flavor := Flavor.IBS_OP, entry_size := sizeof_ibs_op }

/-- `init_ibs_fetch_dev` (ibs-core.c lines 142-148): shared
initialisation, then the fetch flavor and the fetch record size
(`sizeof(struct ibs_fetch)`). -/
def init_ibs_fetch_dev (g : Globals) (dev : IbsDev) (cpu : Nat) : IbsDev :=
  let d := init_ibs_dev g dev cpu
  { d with flavor := Flavor.IBS_FETCH, entry_size := sizeof_ibs_fetch }

/-- Modelled from the spec: `disable_ibs_op_on_cpu` (defined in
ibs-fops.c, not among the sources).  Per §4.3, `disable_on_core_down`
"forcibly turns off hardware sampling for this device without requiring
prior acquire": it clears the sampling-enabled state and touches nothing
else, in particular not the in-use flag. -/
def disable_ibs_op_on_cpu (dev : IbsDev) : IbsDev :=
  { dev with sampling_enabled := false }

/-- Modelled from the spec: `disable_ibs_fetch_on_cpu` (ibs-fops.c, not
among the sources); same forced-disable contract as the op flavor. -/
def disable_ibs_fetch_on_cpu (dev : IbsDev) : IbsDev :=
  { dev with sampling_enabled := false }

/-- The hot-plug actions ibs-core.c's callback switches on, including the
frozen variant of a cancelled bring-up and a catch-all for every other
notifier action (the C switch has no default case, so those fall
through with err = 0 and no effect). -/
inductive HotplugEvent where
  | CPU_UP_PREPARE
  | CPU_ONLINE
  | CPU_UP_CANCELED
  | CPU_UP_CANCELED_FROZEN
  | CPU_DEAD
  | CPU_DOWN_PREPARE
  | otherEvent
deriving DecidableEq, Repr

/-- Results the kernel environment hands back to the driver's calls during
one hot-plug callback: the outcome of each `ibs_device_create`. -/
structure HotplugEnv where
  device_create_err : Flavor → Nat → Int

/-- `ibs_class_cpu_callback` (ibs-core.c lines 208-243), acting on the
per-core pair of device states for the DOWN_PREPARE branch.  Returns the
`err` the C code feeds to `notifier_from_errno` (which reports failure of
the transition exactly when `err` is nonzero), the trace of actions, and
the updated op and fetch device states. -/
def ibs_class_cpu_callback (g : Globals) (env : HotplugEnv)
    (opDev fetchDev : IbsDev) (action : HotplugEvent) (cpu : Nat) :
    Int × List Act × IbsDev × IbsDev :=
  match action with
  | HotplugEvent.CPU_UP_PREPARE =>
    let e1 := env.device_create_err Flavor.IBS_OP cpu
    if e1 ≠ 0 then
      (e1, [Act.deviceCreate Flavor.IBS_OP cpu e1], opDev, fetchDev)
    else
      let e2 := env.device_create_err Flavor.IBS_FETCH cpu
      if e2 ≠ 0 then
        (e2, [Act.deviceCreate Flavor.IBS_OP cpu e1,
              Act.deviceCreate Flavor.IBS_FETCH cpu e2,
              Act.deviceDestroy Flavor.IBS_OP cpu], opDev, fetchDev)
      else
        (0, [Act.deviceCreate Flavor.IBS_OP cpu e1,
             Act.deviceCreate Flavor.IBS_FETCH cpu e2], opDev, fetchDev)
  | HotplugEvent.CPU_ONLINE =>
    (0, Act.setupLvt cpu ::
          (if g.workaround_fam17h_m01h ≠ 0 then
            [Act.startFam17hStaticWorkaround cpu] else []),
     opDev, fetchDev)
  | HotplugEvent.CPU_UP_CANCELED =>
    (0, [Act.deviceDestroy Flavor.IBS_OP cpu,
         Act.deviceDestroy Flavor.IBS_FETCH cpu], opDev, fetchDev)
  | HotplugEvent.CPU_UP_CANCELED_FROZEN =>
    (0, [Act.deviceDestroy Flavor.IBS_OP cpu,
         Act.deviceDestroy Flavor.IBS_FETCH cpu], opDev, fetchDev)
  | HotplugEvent.CPU_DEAD =>
    (0, [Act.deviceDestroy Flavor.IBS_OP cpu,
         Act.deviceDestroy Flavor.IBS_FETCH cpu], opDev, fetchDev)
  | HotplugEvent.CPU_DOWN_PREPARE =>
    (0, Act.disableOpOnCpu cpu :: Act.disableFetchOnCpu cpu ::
          (if g.workaround_fam17h_m01h ≠ 0 then
            [Act.stopFam17hStaticWorkaround cpu] else []),
     disable_ibs_op_on_cpu opDev, disable_ibs_fetch_on_cpu fetchDev)
  | HotplugEvent.otherEvent => (0, [], opDev, fetchDev)

/-- Results the kernel environment hands back to the driver during
`ibs_init`: whether each of the two per-cpu allocations and the
workaround-struct allocation succeed, each `setup_ibs_buffer` result, the
`__register_chrdev` result (the allocated major number, or negative on
failure), the `class_create` result (0, or the negative `PTR_ERR`), each
`ibs_device_create` result, the NMI-handler registration result, and the
cpu lists the `for_each_possible_cpu` / `for_each_online_cpu` loops
visit. -/
structure InitEnv where
  probe : ProbeIn
  op_alloc_ok : Bool
  fetch_alloc_ok : Bool
  workaround_structs_ok : Bool
  setup_buffer_err : Flavor → Nat → Int
  chrdev_major : Int
  class_err : Int
  device_create_err : Flavor → Nat → Int
  nmi_err : Int
  possible_cpus : List Nat

/-- The `out_buffers` unwind label of `ibs_init` (lines 510-516), which
`ibs_exit` does not share: free the fetch and op ring buffer of every
possible cpu (`free_ibs_buffer` tolerates never-allocated buffers), then
release both per-cpu device storage areas. -/
def out_buffers_trace (possible : List Nat) : List Act :=
  (possible.flatMap fun cpu =>
    [Act.freeBuffer Flavor.IBS_FETCH cpu, Act.freeBuffer Flavor.IBS_OP cpu])
  ++ [Act.freePercpuFetch, Act.freePercpuOp]

/-- The `out_class` unwind label of `ibs_init` (lines 489-503): destroy
both flavors' device nodes on every online cpu unconditionally, destroy
the class, and unregister the hot-plug notifier. -/
def out_class_trace (online : List Nat) : List Act :=
  (online.flatMap fun cpu =>
    [Act.deviceDestroy Flavor.IBS_OP cpu, Act.deviceDestroy Flavor.IBS_FETCH cpu])
  ++ [Act.classDestroy, Act.unregisterHotcpuNotifier]

/-- The `for_each_possible_cpu` setup loop of `ibs_init` (lines 399-415):
per cpu, initialise the op device and its buffer, then the fetch device
and its buffer, then `init_workaround_initialize()`; the first failing
`setup_ibs_buffer` aborts the loop with its error. -/
def setup_buffers_loop (sbe : Flavor → Nat → Int) : List Nat → Int × List Act
  | [] => (0, [])
  | cpu :: rest =>
    let e1 := sbe Flavor.IBS_OP cpu
    if e1 ≠ 0 then
      (e1, [Act.initOpDev cpu, Act.setupBuffer Flavor.IBS_OP cpu])
    else
      let e2 := sbe Flavor.IBS_FETCH cpu
      if e2 ≠ 0 then
        (e2, [Act.initOpDev cpu, Act.setupBuffer Flavor.IBS_OP cpu,
              Act.initFetchDev cpu, Act.setupBuffer Flavor.IBS_FETCH cpu])
      else
        let rec_result := setup_buffers_loop sbe rest
        (rec_result.1,
         Act.initOpDev cpu :: Act.setupBuffer Flavor.IBS_OP cpu ::
         Act.initFetchDev cpu :: Act.setupBuffer Flavor.IBS_FETCH cpu ::
         Act.initWorkaroundInitialize :: rec_result.2)

/-- The `for_each_online_cpu` device-creation loop of `ibs_init` (lines
450-459): the op node is created only when op sampling is supported, the
fetch node only when fetch sampling is supported, and the first failing
creation aborts the loop with its error. -/
def create_devices_loop (g : Globals) (dce : Flavor → Nat → Int) :
    List Nat → Int × List Act
  | [] => (0, [])
  | cpu :: rest =>
    let opStep : Int × List Act :=
      if g.ibs_op_supported ≠ 0 then
        (dce Flavor.IBS_OP cpu,
         [Act.deviceCreate Flavor.IBS_OP cpu (dce Flavor.IBS_OP cpu)])
      else (0, [])
    if opStep.1 ≠ 0 then opStep
    else
      let fetchStep : Int × List Act :=
        if g.ibs_fetch_supported ≠ 0 then
          (dce Flavor.IBS_FETCH cpu,
           [Act.deviceCreate Flavor.IBS_FETCH cpu (dce Flavor.IBS_FETCH cpu)])
        else (0, [])
      if fetchStep.1 ≠ 0 then (fetchStep.1, opStep.2 ++ fetchStep.2)
      else
        let rec_result := create_devices_loop g dce rest
        (rec_result.1, opStep.2 ++ fetchStep.2 ++ rec_result.2)

/-- `ibs_init` after a successful capability check (lines 380-518), with
the globals `g` the check produced: per-cpu storage allocation, the
buffer-setup loop, character-device registration, class creation,
interrupt-vector arming on every online cpu, conditional device-node
creation, hot-plug subscription, and NMI-handler registration, each
failure taking the corresponding `goto` unwind path.  Note the
`__register_chrdev` failure path: the C code jumps to `out_buffers`
without assigning `err`, so the function returns the 0 still held in
`err` from the last successful buffer setup. -/
def ibs_init_after_check (env : InitEnv) (g : Globals) : Int × List Act :=
  if ¬ env.op_alloc_ok then (-ENOMEM, [Act.allocPercpuOp])
  else if ¬ env.fetch_alloc_ok then
    (-ENOMEM, [Act.allocPercpuOp, Act.allocPercpuFetch, Act.freePercpuOp])
  else if ¬ env.workaround_structs_ok then
    (-ENOMEM, [Act.allocPercpuOp, Act.allocPercpuFetch,
               Act.initWorkaroundStructs, Act.freePercpuOp, Act.freePercpuFetch])
  else
    let pre := [Act.allocPercpuOp, Act.allocPercpuFetch, Act.initWorkaroundStructs]
    let bufs := setup_buffers_loop env.setup_buffer_err env.possible_cpus
    if bufs.1 ≠ 0 then
      (bufs.1, pre ++ bufs.2 ++ out_buffers_trace env.possible_cpus)
    else if env.chrdev_major < 0 then
      (0, pre ++ bufs.2 ++ [Act.registerChrdev] ++ out_buffers_trace env.possible_cpus)
    else if env.class_err ≠ 0 then
      (env.class_err,
       pre ++ bufs.2 ++ [Act.registerChrdev, Act.classCreate,
                         Act.unregisterChrdev]
           ++ out_buffers_trace env.possible_cpus)
    else
      let armed := pre ++ bufs.2 ++ [Act.registerChrdev, Act.classCreate]
                       ++ env.probe.online_cpus.map Act.setupLvt
      let devs := create_devices_loop g env.device_create_err env.probe.online_cpus
      if devs.1 ≠ 0 then
        (devs.1, armed ++ devs.2 ++ out_class_trace env.probe.online_cpus
                       ++ [Act.unregisterChrdev]
                       ++ out_buffers_trace env.possible_cpus)
      else if env.nmi_err ≠ 0 then
        (env.nmi_err,
         armed ++ devs.2 ++ [Act.registerHotcpuNotifier, Act.registerNmiHandler]
               ++ out_class_trace env.probe.online_cpus
               ++ [Act.unregisterChrdev]
               ++ out_buffers_trace env.possible_cpus)
      else
        (0, armed ++ devs.2 ++ [Act.registerHotcpuNotifier, Act.registerNmiHandler])

/-- `ibs_init` (ibs-core.c lines 371-519): run the capability prober on
the initial globals and return its error immediately when negative;
otherwise continue with `ibs_init_after_check`.  Returns the C return
value, the final globals, and the full ordered action trace. -/
def ibs_init (env : InitEnv) : Int × Globals × List Act :=
  let probed := check_for_ibs_support env.probe initialGlobals
  if probed.1 < 0 then probed
  else
    let rest := ibs_init_after_check env probed.2.1
    (rest.1, probed.2.1, probed.2.2 ++ rest.2)

/-- `ibs_exit` (ibs-core.c lines 521-569): unregister the NMI handler;
destroy each online cpu's op node if op sampling is supported and its
fetch node if fetch sampling is supported; destroy the class; release the
character-device region; unregister the hot-plug notifier; then for every
possible cpu free the fetch and op buffers and, when the fam17h
workaround is engaged, stop its static workaround on that cpu; finally
release both per-cpu storage areas and the workaround structs. -/
def ibs_exit (g : Globals) (online possible : List Nat) : List Act :=
  Act.unregisterNmiHandler ::
    ((online.flatMap fun cpu =>
        (if g.ibs_op_supported ≠ 0 then [Act.deviceDestroy Flavor.IBS_OP cpu] else [])
        ++ (if g.ibs_fetch_supported ≠ 0 then
              [Act.deviceDestroy Flavor.IBS_FETCH cpu] else []))
     ++ [Act.classDestroy, Act.unregisterChrdev, Act.unregisterHotcpuNotifier]
     ++ (possible.flatMap fun cpu =>
          [Act.freeBuffer Flavor.IBS_FETCH cpu, Act.freeBuffer Flavor.IBS_OP cpu]
          ++ (if g.workaround_fam17h_m01h ≠ 0 then
                [Act.stopFam17hStaticWorkaround cpu] else []))
     ++ [Act.freePercpuFetch, Act.freePercpuOp, Act.freeWorkaroundStructs])

/-- Bit helper: masking with a single-bit mask gives zero exactly when
that bit of `n` is clear. -/
theorem and_shift_one_eq_zero (n i : Nat) :
    (n &&& (1 <<< i) = 0) ↔ n.testBit i = false := by
  rw [Nat.one_shiftLeft, Nat.and_two_pow]
  cases h : n.testBit i <;> simp [h]

/-- Bit helper: a bitwise or of naturals is zero exactly when both sides
are zero. -/
theorem or_eq_zero_iff_both (m n : Nat) : m ||| n = 0 ↔ m = 0 ∧ n = 0 := by
  constructor
  · intro h
    have hb : ∀ i, (m.testBit i || n.testBit i) = false := by
      intro i
      have := congrArg (fun x => Nat.testBit x i) h
      simpa [Nat.testBit_lor] using this
    constructor
    · exact Nat.eq_of_testBit_eq fun i => by
        simp [Nat.zero_testBit, (Bool.or_eq_false_iff.mp (hb i)).1]
    · exact Nat.eq_of_testBit_eq fun i => by
        simp [Nat.zero_testBit, (Bool.or_eq_false_iff.mp (hb i)).2]
  · rintro ⟨rfl, rfl⟩
    rfl

/-- C8: after device initialisation (with `g` the process-wide flag
values at call time, in particular those the capability prober computed)
the op device records the core identifier and the op flavor, its entry
size is the op record size, its in-use flag is 0, and its eight
capability-flag copies and three workaround-flag copies equal `g`'s
values; symmetrically for the fetch device with the fetch record size;
and the two flavors' record sizes differ. -/
theorem C8_device_init_identity_size_flags (g : Globals) (dev0 : IbsDev) (cpu : Nat) :
    (init_ibs_op_dev g dev0 cpu).cpu = cpu ∧
    (init_ibs_op_dev g dev0 cpu).flavor = Flavor.IBS_OP ∧
    (init_ibs_op_dev g dev0 cpu).entry_size = sizeof_ibs_op ∧
    (init_ibs_op_dev g dev0 cpu).in_use = 0 ∧
    (init_ibs_op_dev g dev0 cpu).ibs_fetch_supported = g.ibs_fetch_supported ∧
    (init_ibs_op_dev g dev0 cpu).ibs_op_supported = g.ibs_op_supported ∧
    (init_ibs_op_dev g dev0 cpu).ibs_brn_trgt_supported = g.ibs_brn_trgt_supported ∧
    (init_ibs_op_dev g dev0 cpu).ibs_op_cnt_ext_supported = g.ibs_op_cnt_ext_supported ∧
    (init_ibs_op_dev g dev0 cpu).ibs_rip_invalid_chk_supported = g.ibs_rip_invalid_chk_supported ∧
    (init_ibs_op_dev g dev0 cpu).ibs_op_brn_fuse_supported = g.ibs_op_brn_fuse_supported ∧
    (init_ibs_op_dev g dev0 cpu).ibs_fetch_ctl_extd_supported = g.ibs_fetch_ctl_extd_supported ∧
    (init_ibs_op_dev g dev0 cpu).ibs_op_data4_supported = g.ibs_op_data4_supported ∧
    (init_ibs_op_dev g dev0 cpu).workaround_fam10h_err_420 = g.workaround_fam10h_err_420 ∧
    (init_ibs_op_dev g dev0 cpu).workaround_fam15h_err_718 = g.workaround_fam15h_err_718 ∧
    (init_ibs_op_dev g dev0 cpu).workaround_fam17h_m01h = g.workaround_fam17h_m01h ∧
    (init_ibs_fetch_dev g dev0 cpu).cpu = cpu ∧
    (init_ibs_fetch_dev g dev0 cpu).flavor = Flavor.IBS_FETCH ∧
    (init_ibs_fetch_dev g dev0 cpu).entry_size = sizeof_ibs_fetch ∧
    (init_ibs_fetch_dev g dev0 cpu).in_use = 0 ∧
    (init_ibs_fetch_dev g dev0 cpu).ibs_fetch_supported = g.ibs_fetch_supported ∧
    (init_ibs_fetch_dev g dev0 cpu).ibs_op_supported = g.ibs_op_supported ∧
    (init_ibs_fetch_dev g dev0 cpu).ibs_brn_trgt_supported = g.ibs_brn_trgt_supported ∧
    (init_ibs_fetch_dev g dev0 cpu).ibs_op_cnt_ext_supported = g.ibs_op_cnt_ext_supported ∧
    (init_ibs_fetch_dev g dev0 cpu).ibs_rip_invalid_chk_supported = g.ibs_rip_invalid_chk_supported ∧
    (init_ibs_fetch_dev g dev0 cpu).ibs_op_brn_fuse_supported = g.ibs_op_brn_fuse_supported ∧
    (init_ibs_fetch_dev g dev0 cpu).ibs_fetch_ctl_extd_supported = g.ibs_fetch_ctl_extd_supported ∧
    (init_ibs_fetch_dev g dev0 cpu).ibs_op_data4_supported = g.ibs_op_data4_supported ∧
    (init_ibs_fetch_dev g dev0 cpu).workaround_fam10h_err_420 = g.workaround_fam10h_err_420 ∧
    (init_ibs_fetch_dev g dev0 cpu).workaround_fam15h_err_718 = g.workaround_fam15h_err_718 ∧
    (init_ibs_fetch_dev g dev0 cpu).workaround_fam17h_m01h = g.workaround_fam17h_m01h ∧
    (init_ibs_op_dev g dev0 cpu).entry_size ≠ (init_ibs_fetch_dev g dev0 cpu).entry_size := by
  refine ⟨rfl, rfl, rfl, rfl, rfl, rfl, rfl, rfl, rfl, rfl, rfl, rfl, rfl, rfl, rfl,
          rfl, rfl, rfl, rfl, rfl, rfl, rfl, rfl, rfl, rfl, rfl, rfl, rfl, rfl, rfl,
          by show sizeof_ibs_op ≠ sizeof_ibs_fetch; decide⟩

/-- C5: on a core down-prepare event the callback force-disables hardware
sampling on both the core's op and fetch devices — applying the forced
disable that needs no prior acquire, leaving the in-use flags untouched,
for any current device state — and stops the fam17h continuous workaround
on that core exactly when the workaround flag is set. -/
theorem C5_down_prepare_disables_both_flavors (g : Globals) (env : HotplugEnv)
    (opDev fetchDev : IbsDev) (cpu : Nat) :
    (ibs_class_cpu_callback g env opDev fetchDev HotplugEvent.CPU_DOWN_PREPARE cpu).1 = 0 ∧
    Act.disableOpOnCpu cpu ∈
      (ibs_class_cpu_callback g env opDev fetchDev HotplugEvent.CPU_DOWN_PREPARE cpu).2.1 ∧
    Act.disableFetchOnCpu cpu ∈
      (ibs_class_cpu_callback g env opDev fetchDev HotplugEvent.CPU_DOWN_PREPARE cpu).2.1 ∧
    (ibs_class_cpu_callback g env opDev fetchDev HotplugEvent.CPU_DOWN_PREPARE cpu).2.2.1 =
      disable_ibs_op_on_cpu opDev ∧
    (ibs_class_cpu_callback g env opDev fetchDev HotplugEvent.CPU_DOWN_PREPARE cpu).2.2.2 =
      disable_ibs_fetch_on_cpu fetchDev ∧
    (ibs_class_cpu_callback g env opDev fetchDev HotplugEvent.CPU_DOWN_PREPARE cpu).2.2.1.sampling_enabled = false ∧
    (ibs_class_cpu_callback g env opDev fetchDev HotplugEvent.CPU_DOWN_PREPARE cpu).2.2.2.sampling_enabled = false ∧
    (ibs_class_cpu_callback g env opDev fetchDev HotplugEvent.CPU_DOWN_PREPARE cpu).2.2.1.in_use = opDev.in_use ∧
    (ibs_class_cpu_callback g env opDev fetchDev HotplugEvent.CPU_DOWN_PREPARE cpu).2.2.2.in_use = fetchDev.in_use ∧
    (Act.stopFam17hStaticWorkaround cpu ∈
        (ibs_class_cpu_callback g env opDev fetchDev HotplugEvent.CPU_DOWN_PREPARE cpu).2.1 ↔
      g.workaround_fam17h_m01h ≠ 0) := by
  by_cases h : g.workaround_fam17h_m01h = 0 <;>
    simp [ibs_class_cpu_callback, disable_ibs_op_on_cpu, disable_ibs_fetch_on_cpu, h]

/-- C6: a cancelled core preparation (plain or frozen) and an unexpected
core removal each make the callback destroy the device handles of both
flavors for that core, reporting success. -/
theorem C6_cancel_or_dead_destroys_both (g : Globals) (env : HotplugEnv)
    (opDev fetchDev : IbsDev) (cpu : Nat) :
    (ibs_class_cpu_callback g env opDev fetchDev HotplugEvent.CPU_UP_CANCELED cpu).2.1 =
      [Act.deviceDestroy Flavor.IBS_OP cpu, Act.deviceDestroy Flavor.IBS_FETCH cpu] ∧
    (ibs_class_cpu_callback g env opDev fetchDev HotplugEvent.CPU_UP_CANCELED_FROZEN cpu).2.1 =
      [Act.deviceDestroy Flavor.IBS_OP cpu, Act.deviceDestroy Flavor.IBS_FETCH cpu] ∧
    (ibs_class_cpu_callback g env opDev fetchDev HotplugEvent.CPU_DEAD cpu).2.1 =
      [Act.deviceDestroy Flavor.IBS_OP cpu, Act.deviceDestroy Flavor.IBS_FETCH cpu] ∧
    (ibs_class_cpu_callback g env opDev fetchDev HotplugEvent.CPU_UP_CANCELED cpu).1 = 0 ∧
    (ibs_class_cpu_callback g env opDev fetchDev HotplugEvent.CPU_UP_CANCELED_FROZEN cpu).1 = 0 ∧
    (ibs_class_cpu_callback g env opDev fetchDev HotplugEvent.CPU_DEAD cpu).1 = 0 :=
  ⟨rfl, rfl, rfl, rfl, rfl, rfl⟩

/-- The device handles alive after a trace: each successful
`ibs_device_create` adds its (flavor, core) pair, each
`ibs_device_destroy` removes that pair. -/
def live_handles (tr : List Act) : List (Flavor × Nat) :=
  tr.foldl
    (fun acc a =>
      match a with
      | Act.deviceCreate f c e => if e = 0 then acc ++ [(f, c)] else acc
      | Act.deviceDestroy f c => acc.filter (fun p => p != (f, c))
      | _ => acc)
    []

/-- C3: when a hot-plug prepare fails — either the op (first-flavor)
creation fails, or the fetch (second-flavor) creation fails after the op
one succeeded — the callback's errno is nonzero (so `notifier_from_errno`
reports the transition as failed), no created handle stays alive, and in
the second-flavor-failure case the op handle is explicitly destroyed. -/
theorem C3_up_prepare_failure_rolls_back (g : Globals) (env : HotplugEnv)
    (opDev fetchDev : IbsDev) (cpu : Nat)
    (h : env.device_create_err Flavor.IBS_OP cpu ≠ 0 ∨
         (env.device_create_err Flavor.IBS_OP cpu = 0 ∧
          env.device_create_err Flavor.IBS_FETCH cpu ≠ 0)) :
    (ibs_class_cpu_callback g env opDev fetchDev HotplugEvent.CPU_UP_PREPARE cpu).1 ≠ 0 ∧
    live_handles
      (ibs_class_cpu_callback g env opDev fetchDev HotplugEvent.CPU_UP_PREPARE cpu).2.1 = [] ∧
    (env.device_create_err Flavor.IBS_OP cpu = 0 →
      Act.deviceDestroy Flavor.IBS_OP cpu ∈
        (ibs_class_cpu_callback g env opDev fetchDev HotplugEvent.CPU_UP_PREPARE cpu).2.1) := by
  rcases h with h1 | ⟨h1, h2⟩
  · simp [ibs_class_cpu_callback, h1, live_handles]
  · simp [ibs_class_cpu_callback, h1, h2, live_handles]

/-- A hot-plug environment in which creating an op node succeeds and
creating a fetch node fails with -ENOMEM. -/
def fetchFailEnv : HotplugEnv :=
  { device_create_err := fun f _ => if f = Flavor.IBS_FETCH then -ENOMEM else 0 }

/-- A device state with the device currently held and sampling running,
to exercise the per-core paths at a nontrivial state. -/
def sampleDev : IbsDev :=
  { cpu := 0
    flavor := Flavor.IBS_OP
    entry_size := 0
    in_use := 1
    sampling_enabled := true
    ibs_fetch_supported := 2
    ibs_op_supported := 4
    ibs_brn_trgt_supported := 0
    ibs_op_cnt_ext_supported := 0
    ibs_rip_invalid_chk_supported := 0
    ibs_op_brn_fuse_supported := 0
    ibs_fetch_ctl_extd_supported := 0
    ibs_op_data4_supported := 0
    workaround_fam10h_err_420 := 0
    workaround_fam15h_err_718 := 0
    workaround_fam17h_m01h := 0 }

/-- C3 witness: with op creation succeeding and fetch creation failing
with -ENOMEM on core 3, the callback reports failure, no handle stays
alive, and the op handle is destroyed. -/
theorem C3_up_prepare_failure_rolls_back_witness :
    (ibs_class_cpu_callback initialGlobals fetchFailEnv sampleDev sampleDev
        HotplugEvent.CPU_UP_PREPARE 3).1 ≠ 0 ∧
    live_handles
      (ibs_class_cpu_callback initialGlobals fetchFailEnv sampleDev sampleDev
        HotplugEvent.CPU_UP_PREPARE 3).2.1 = [] ∧
    Act.deviceDestroy Flavor.IBS_OP 3 ∈
      (ibs_class_cpu_callback initialGlobals fetchFailEnv sampleDev sampleDev
        HotplugEvent.CPU_UP_PREPARE 3).2.1 := by
  have h := C3_up_prepare_failure_rolls_back initialGlobals fetchFailEnv sampleDev sampleDev 3
    (Or.inr ⟨by decide, by decide⟩)
  exact ⟨h.1, h.2.1, h.2.2 (by decide)⟩

/-- The teardown order claim C4 asserts, transcribed phase by phase from
its words: interrupt-handler unregistration, then hot-plug
unsubscription, then handle destruction, then naming-infrastructure
removal, then the per-core buffer frees and storage release, then
reversion of the still-active continuous workaround (with the
workaround-struct release kept in its final position, which the claim
does not dispute). -/
def ibs_exit_claimed_trace (g : Globals) (online possible : List Nat) : List Act :=
  [Act.unregisterNmiHandler, Act.unregisterHotcpuNotifier]
  ++ (online.flatMap fun cpu =>
      (if g.ibs_op_supported ≠ 0 then [Act.deviceDestroy Flavor.IBS_OP cpu] else [])
      ++ (if g.ibs_fetch_supported ≠ 0 then
            [Act.deviceDestroy Flavor.IBS_FETCH cpu] else []))
  ++ [Act.classDestroy, Act.unregisterChrdev]
  ++ (possible.flatMap fun cpu =>
      [Act.freeBuffer Flavor.IBS_FETCH cpu, Act.freeBuffer Flavor.IBS_OP cpu])
  ++ [Act.freePercpuFetch, Act.freePercpuOp]
  ++ (if g.workaround_fam17h_m01h ≠ 0 then
        possible.map Act.stopFam17hStaticWorkaround else [])
  ++ [Act.freeWorkaroundStructs]

/-- Globals as the prober computes them on a processor supporting both
flavors with no workarounds (e.g. CPUID_Fn8000_001B EAX = 0b111). -/
def bothSupportedGlobals : Globals :=
  { initialGlobals with ibs_fetch_supported := 2, ibs_op_supported := 4 }

/-- C4 counterexample: with both flavors supported, one online core and
one possible core, the actual teardown trace differs from the order the
claim states — the hot-plug unsubscription comes only after handle
destruction, class destruction and character-device release, not right
after the NMI-handler unregistration. -/
theorem C4_exit_order_counterexample :
    ibs_exit bothSupportedGlobals [0] [0] =
      [Act.unregisterNmiHandler,
       Act.deviceDestroy Flavor.IBS_OP 0, Act.deviceDestroy Flavor.IBS_FETCH 0,
       Act.classDestroy, Act.unregisterChrdev, Act.unregisterHotcpuNotifier,
       Act.freeBuffer Flavor.IBS_FETCH 0, Act.freeBuffer Flavor.IBS_OP 0,
       Act.freePercpuFetch, Act.freePercpuOp, Act.freeWorkaroundStructs] ∧
    ibs_exit_claimed_trace bothSupportedGlobals [0] [0] =
      [Act.unregisterNmiHandler, Act.unregisterHotcpuNotifier,
       Act.deviceDestroy Flavor.IBS_OP 0, Act.deviceDestroy Flavor.IBS_FETCH 0,
       Act.classDestroy, Act.unregisterChrdev,
       Act.freeBuffer Flavor.IBS_FETCH 0, Act.freeBuffer Flavor.IBS_OP 0,
       Act.freePercpuFetch, Act.freePercpuOp, Act.freeWorkaroundStructs] ∧
    ibs_exit bothSupportedGlobals [0] [0] ≠
      ibs_exit_claimed_trace bothSupportedGlobals [0] [0] := by
  decide

/-- Teardown phase (amended C4): per online core, destroy the op handle
when op sampling is supported and the fetch handle when fetch sampling is
supported — the same handles module initialisation created. -/
def exit_destroy_handles_phase (g : Globals) (online : List Nat) : List Act :=
  online.flatMap fun cpu =>
    (if g.ibs_op_supported ≠ 0 then [Act.deviceDestroy Flavor.IBS_OP cpu] else [])
    ++ (if g.ibs_fetch_supported ≠ 0 then
          [Act.deviceDestroy Flavor.IBS_FETCH cpu] else [])

/-- Teardown phase (amended C4): per possible core, free the fetch and op
ring buffers, then revert the continuous fam17h workaround on that core
when it is still engaged. -/
def exit_free_buffers_phase (g : Globals) (possible : List Nat) : List Act :=
  possible.flatMap fun cpu =>
    [Act.freeBuffer Flavor.IBS_FETCH cpu, Act.freeBuffer Flavor.IBS_OP cpu]
    ++ (if g.workaround_fam17h_m01h ≠ 0 then
          [Act.stopFam17hStaticWorkaround cpu] else [])

/-- C4 (amended): module teardown runs exactly these phases, in this
order: unregister the NMI handler; destroy all device handles that
startup created; destroy the device class and release the
character-device region; unsubscribe from hot-plug notifications; per
possible core, free both ring buffers with the per-core reversion of the
still-active continuous workaround interleaved; release both per-cpu
storage areas; release the workaround structs. -/
theorem C4_exit_order_amended (g : Globals) (online possible : List Nat) :
    ibs_exit g online possible =
      [Act.unregisterNmiHandler]
      ++ exit_destroy_handles_phase g online
      ++ [Act.classDestroy, Act.unregisterChrdev, Act.unregisterHotcpuNotifier]
      ++ exit_free_buffers_phase g possible
      ++ [Act.freePercpuFetch, Act.freePercpuOp, Act.freeWorkaroundStructs] := by
  simp [ibs_exit, exit_destroy_handles_phase, exit_free_buffers_phase]

/-- `check_ibs_caps` passes the incoming trace through unchanged and
never touches the workaround flags. -/
theorem check_ibs_caps_preserves (f : Nat) (g : Globals) (tr : List Act) :
    (check_ibs_caps f g tr).2.2 = tr ∧
    (check_ibs_caps f g tr).2.1.workaround_fam17h_m01h = g.workaround_fam17h_m01h ∧
    (check_ibs_caps f g tr).2.1.workaround_fam10h_err_420 = g.workaround_fam10h_err_420 ∧
    (check_ibs_caps f g tr).2.1.workaround_fam15h_err_718 = g.workaround_fam15h_err_718 := by
  unfold check_ibs_caps
  split
  · simp
  · dsimp only
    split <;> simp

/-- Every action `check_for_ibs_support` ever performs is an engagement of
the fam17h static workaround on some cpu. -/
theorem check_trace_only_workarounds (inp : ProbeIn) (g : Globals) :
    ∀ a ∈ (check_for_ibs_support inp g).2.2,
      ∃ c, a = Act.startFam17hStaticWorkaround c := by
  intro a ha
  unfold check_for_ibs_support at ha
  split at ha
  · simp at ha
  · split at ha
    · simp at ha
    · dsimp only at ha
      split at ha
      · split at ha
        · rw [(check_ibs_caps_preserves _ _ _).1] at ha
          rcases List.mem_map.mp ha with ⟨c, _, rfl⟩
          exact ⟨c, rfl⟩
        · simp at ha
      · rw [(check_ibs_caps_preserves _ _ _).1] at ha
        simp at ha

/-- `apply_family_workarounds` never touches the fam17h flag. -/
theorem apply_family_workarounds_fam17 (inp : ProbeIn) (g : Globals) :
    (apply_family_workarounds inp g).workaround_fam17h_m01h =
      g.workaround_fam17h_m01h := by
  unfold apply_family_workarounds
  dsimp only
  split <;> split <;> rfl

/-- C7: on a processor whose CPUID_Fn8000_0001 ECX bit 10 is clear, the
prober run from the initial flag state behaves as follows.  If the
processor is family 17h model 01h it does not fail there: it continues
into the capability-flag checks with the fam17h workaround flag set and
with the static workaround started on every online core.  On any other
processor (vendor and family checks passing) it returns the
unsupported-hardware error -EINVAL without engaging any workaround. -/
theorem C7_fam17h_model1_engages_workaround (inp : ProbeIn)
    (hv : inp.x86_vendor = X86_VENDOR_AMD)
    (hfam : 0x10 ≤ inp.x86) (hf11 : inp.x86 ≠ 0x11)
    (hbit : inp.cpuid_ecx_8000_0001 &&& (1 <<< 10) = 0) :
    (inp.x86 = 0x17 ∧ inp.x86_model = 0x1 →
      check_for_ibs_support inp initialGlobals =
        check_ibs_caps inp.cpuid_eax_8000_001B
          { initialGlobals with workaround_fam17h_m01h := 1 }
          (inp.online_cpus.map Act.startFam17hStaticWorkaround) ∧
      (check_for_ibs_support inp initialGlobals).2.1.workaround_fam17h_m01h = 1 ∧
      (check_for_ibs_support inp initialGlobals).2.2 =
        inp.online_cpus.map Act.startFam17hStaticWorkaround) ∧
    (¬(inp.x86 = 0x17 ∧ inp.x86_model = 0x1) →
      (check_for_ibs_support inp initialGlobals).1 = -EINVAL ∧
      (check_for_ibs_support inp initialGlobals).2.2 = []) := by
  have hv2 : ¬(inp.x86_vendor ≠ X86_VENDOR_AMD) := by simp [hv]
  have hfam2 : ¬(inp.x86 < 0x10 ∨ inp.x86 = 0x11) := by omega
  constructor
  · rintro ⟨h17, hm1⟩
    have hafw : apply_family_workarounds inp initialGlobals = initialGlobals := by
      unfold apply_family_workarounds
      simp [h17]
    have hck : check_for_ibs_support inp initialGlobals =
        check_ibs_caps inp.cpuid_eax_8000_001B
          { initialGlobals with workaround_fam17h_m01h := 1 }
          (inp.online_cpus.map Act.startFam17hStaticWorkaround) := by
      unfold check_for_ibs_support
      rw [if_neg hv2, if_neg hfam2]
      dsimp only
      rw [hafw]
      rw [if_pos ⟨hbit, rfl⟩, if_pos ⟨h17, hm1⟩]
    refine ⟨hck, ?hflag, ?htr⟩
    · rw [hck, (check_ibs_caps_preserves _ _ _).2.1]
    · rw [hck, (check_ibs_caps_preserves _ _ _).1]
  · intro hnot
    have hck : check_for_ibs_support inp initialGlobals =
        (-EINVAL, apply_family_workarounds inp initialGlobals, []) := by
      unfold check_for_ibs_support
      rw [if_neg hv2, if_neg hfam2]
      dsimp only
      rw [if_pos ⟨hbit, by rw [apply_family_workarounds_fam17]; rfl⟩, if_neg hnot]
    rw [hck]
    exact ⟨rfl, rfl⟩

/-- A family 17h model 01h processor whose feature-indicator bit 10 is
absent but whose capability leaf is valid with fetch and op support. -/
def probeFam17m1 : ProbeIn :=
  { x86_vendor := 2
    x86 := 0x17
    x86_model := 0x1
    cpuid_ecx_8000_0001 := 0
    cpuid_eax_8000_001B := 7
    online_cpus := [0, 1] }

/-- C7 witness: on the concrete family 17h model 01h processor the prober
continues into the capability checks with the workaround flag set and the
static workaround started on cpus 0 and 1. -/
theorem C7_fam17h_model1_engages_workaround_witness :
    check_for_ibs_support probeFam17m1 initialGlobals =
      check_ibs_caps 7 { initialGlobals with workaround_fam17h_m01h := 1 }
        [Act.startFam17hStaticWorkaround 0, Act.startFam17hStaticWorkaround 1] ∧
    (check_for_ibs_support probeFam17m1 initialGlobals).2.1.workaround_fam17h_m01h = 1 ∧
    (check_for_ibs_support probeFam17m1 initialGlobals).2.2 =
      [Act.startFam17hStaticWorkaround 0, Act.startFam17hStaticWorkaround 1] := by
  have h := (C7_fam17h_model1_engages_workaround probeFam17m1 rfl (by decide) (by decide)
    (by decide)).1 ⟨rfl, rfl⟩
  exact h

/-- When the capability-flag phase succeeds, the op-support flag it stored
is the or of the three op-related CPUID mask values. -/
theorem check_ibs_caps_op_flag (f : Nat) (g : Globals) (tr : List Act) :
    (check_ibs_caps f g tr).1 = 0 →
    (check_ibs_caps f g tr).2.1.ibs_op_supported =
      (f &&& (1 <<< 2)) ||| (f &&& (1 <<< 3)) ||| (f &&& (1 <<< 4)) := by
  unfold check_ibs_caps
  split
  · intro h
    simp [EINVAL] at h
  · dsimp only
    split
    · intro h
      simp [EINVAL] at h
    · intro _
      rfl

/-- When the whole prober succeeds, the op-support flag it stored is the
or of the three op-related mask values of CPUID_Fn8000_001B EAX. -/
theorem check_op_flag_on_success (inp : ProbeIn) (g : Globals) :
    (check_for_ibs_support inp g).1 = 0 →
    (check_for_ibs_support inp g).2.1.ibs_op_supported =
      (inp.cpuid_eax_8000_001B &&& (1 <<< 2)) |||
        (inp.cpuid_eax_8000_001B &&& (1 <<< 3)) |||
        (inp.cpuid_eax_8000_001B &&& (1 <<< 4)) := by
  unfold check_for_ibs_support
  split
  · intro h
    simp [EINVAL] at h
  · split
    · intro h
      simp [EINVAL] at h
    · dsimp only
      split
      · split
        · exact check_ibs_caps_op_flag _ _ _
        · intro h
          simp [EINVAL] at h
      · exact check_ibs_caps_op_flag _ _ _

/-- C9: when the prober succeeds, it marked op sampling as supported
exactly when at least one of bits 2, 3 or 4 of CPUID_Fn8000_001B EAX is
set — the three op feature bits are or-ed into the single flag. -/
theorem C9_op_support_iff_bits (inp : ProbeIn) (g : Globals)
    (h : (check_for_ibs_support inp g).1 = 0) :
    ((check_for_ibs_support inp g).2.1.ibs_op_supported ≠ 0 ↔
      (inp.cpuid_eax_8000_001B.testBit 2 = true ∨
       inp.cpuid_eax_8000_001B.testBit 3 = true ∨
       inp.cpuid_eax_8000_001B.testBit 4 = true)) := by
  rw [check_op_flag_on_success inp g h]
  rw [Ne, or_eq_zero_iff_both, or_eq_zero_iff_both,
      and_shift_one_eq_zero, and_shift_one_eq_zero, and_shift_one_eq_zero]
  cases inp.cpuid_eax_8000_001B.testBit 2 <;>
    cases inp.cpuid_eax_8000_001B.testBit 3 <;>
    cases inp.cpuid_eax_8000_001B.testBit 4 <;> simp

/-- A family 16h processor with the feature-indicator bit present and a
capability leaf reporting valid flags with op bits 2 and 3 set
(EAX = 0b1101). -/
def probeFam16 : ProbeIn :=
  { x86_vendor := 2
    x86 := 0x16
    x86_model := 0
    cpuid_ecx_8000_0001 := 1 <<< 10
    cpuid_eax_8000_001B := 13
    online_cpus := [0] }

/-- C9 witness: on the concrete capability leaf 0b1101 (bit 2 set) the
succeeding prober marks op sampling supported. -/
theorem C9_op_support_iff_bits_witness :
    (check_for_ibs_support probeFam16 initialGlobals).2.1.ibs_op_supported ≠ 0 :=
  (C9_op_support_iff_bits probeFam16 initialGlobals (by decide)).mpr (Or.inl (by decide))

/-- When the capability leaf reports no valid flags or neither sampling
flavor, the capability-flag phase fails with -EINVAL. -/
theorem check_ibs_caps_fails_no_sampling (f : Nat) (g : Globals) (tr : List Act)
    (h : f.testBit 0 = false ∨
         (f.testBit 1 = false ∧ f.testBit 2 = false ∧ f.testBit 3 = false ∧
          f.testBit 4 = false)) :
    (check_ibs_caps f g tr).1 = -EINVAL := by
  unfold check_ibs_caps
  split
  · rfl
  · dsimp only
    rename_i hne
    rcases h with h0 | ⟨h1, h2, h3, h4⟩
    · exact absurd ((and_shift_one_eq_zero f 0).mpr h0) hne
    · rw [if_pos]
      refine ⟨(and_shift_one_eq_zero f 1).mpr h1, ?hop⟩
      have e2 := (and_shift_one_eq_zero f 2).mpr h2
      have e3 := (and_shift_one_eq_zero f 3).mpr h3
      have e4 := (and_shift_one_eq_zero f 4).mpr h4
      show (f &&& (1 <<< 2)) ||| (f &&& (1 <<< 3)) ||| (f &&& (1 <<< 4)) = 0
      rw [e2, e3, e4]
      rfl

/-- When CPUID_Fn8000_001B EAX reports no valid flags or neither sampling
flavor, the whole prober fails with -EINVAL on every path. -/
theorem check_fails_no_sampling (inp : ProbeIn) (g : Globals)
    (h : inp.cpuid_eax_8000_001B.testBit 0 = false ∨
         (inp.cpuid_eax_8000_001B.testBit 1 = false ∧
          inp.cpuid_eax_8000_001B.testBit 2 = false ∧
          inp.cpuid_eax_8000_001B.testBit 3 = false ∧
          inp.cpuid_eax_8000_001B.testBit 4 = false)) :
    (check_for_ibs_support inp g).1 = -EINVAL := by
  unfold check_for_ibs_support
  split
  · rfl
  · split
    · rfl
    · dsimp only
      split
      · split
        · exact check_ibs_caps_fails_no_sampling _ _ _ h
        · rfl
      · exact check_ibs_caps_fails_no_sampling _ _ _ h

/-- C1: when the capability-flags-valid bit is clear or neither
fetch-sampling nor op-sampling is supported, `ibs_init` returns the
capability check's -EINVAL, and its trace contains no per-cpu storage
allocation and no buffer setup — the check runs before any allocation. -/
theorem C1_no_sampling_fails_before_allocation (env : InitEnv)
    (h : env.probe.cpuid_eax_8000_001B.testBit 0 = false ∨
         (env.probe.cpuid_eax_8000_001B.testBit 1 = false ∧
          env.probe.cpuid_eax_8000_001B.testBit 2 = false ∧
          env.probe.cpuid_eax_8000_001B.testBit 3 = false ∧
          env.probe.cpuid_eax_8000_001B.testBit 4 = false)) :
    (ibs_init env).1 = -EINVAL ∧
    ∀ a ∈ (ibs_init env).2.2,
      a ≠ Act.allocPercpuOp ∧ a ≠ Act.allocPercpuFetch ∧
      ∀ fl c, a ≠ Act.setupBuffer fl c := by
  have hfail := check_fails_no_sampling env.probe initialGlobals h
  have hres : ibs_init env = check_for_ibs_support env.probe initialGlobals := by
    unfold ibs_init
    dsimp only
    rw [if_pos (by rw [hfail]; decide)]
  constructor
  · rw [hres]
    exact hfail
  · rw [hres]
    intro a ha
    rcases check_trace_only_workarounds env.probe initialGlobals a ha with ⟨c, rfl⟩
    exact ⟨by simp, by simp, fun fl cc => by simp⟩

/-- An environment whose processor reports a zero CPUID_Fn8000_001B EAX
(no valid capability flags) but where every allocation would succeed. -/
def noIbsEnv : InitEnv :=
  { probe :=
      { x86_vendor := 2
        x86 := 0x16
        x86_model := 0
        cpuid_ecx_8000_0001 := 1 <<< 10
        cpuid_eax_8000_001B := 0
        online_cpus := [0] }
    op_alloc_ok := true
    fetch_alloc_ok := true
    workaround_structs_ok := true
    setup_buffer_err := fun _ _ => 0
    chrdev_major := 240
    class_err := 0
    device_create_err := fun _ _ => 0
    nmi_err := 0
    possible_cpus := [0] }

/-- C1 witness: with capability leaf 0, module init fails with -EINVAL
and in particular never allocates the op per-cpu storage. -/
theorem C1_no_sampling_fails_before_allocation_witness :
    (ibs_init noIbsEnv).1 = -EINVAL ∧
    Act.allocPercpuOp ∉ (ibs_init noIbsEnv).2.2 := by
  have h := C1_no_sampling_fails_before_allocation noIbsEnv (Or.inl (by decide))
  exact ⟨h.1, fun hmem => (h.2 _ hmem).1 rfl⟩

/-- An environment where the processor supports both flavors
(CPUID_Fn8000_001B EAX = 0b111), every allocation and buffer setup for
the two possible cpus succeeds, and then `__register_chrdev` fails,
returning -16. -/
def chrdevFailEnv : InitEnv :=
  { probe :=
      { x86_vendor := 2
        x86 := 0x16
        x86_model := 0
        cpuid_ecx_8000_0001 := 1 <<< 10
        cpuid_eax_8000_001B := 7
        online_cpus := [0, 1] }
    op_alloc_ok := true
    fetch_alloc_ok := true
    workaround_structs_ok := true
    setup_buffer_err := fun _ _ => 0
    chrdev_major := -16
    class_err := 0
    device_create_err := fun _ _ => 0
    nmi_err := 0
    possible_cpus := [0, 1] }

/-- C2 evaluation: when device-number registration fails after all
allocations succeeded, `ibs_init` does free every per-core ring buffer
and release both per-cpu storage areas (the `out_buffers` unwind), but —
because the C code jumps to `out_buffers` without assigning `err` — it
returns 0, reporting the module load as successful, not the nonzero
error the claim states. -/
theorem C2_chrdev_failure_unwinds_but_returns_zero :
    (ibs_init chrdevFailEnv).1 = 0 ∧
    (ibs_init chrdevFailEnv).2.2 =
      [Act.allocPercpuOp, Act.allocPercpuFetch, Act.initWorkaroundStructs,
       Act.initOpDev 0, Act.setupBuffer Flavor.IBS_OP 0,
       Act.initFetchDev 0, Act.setupBuffer Flavor.IBS_FETCH 0,
       Act.initWorkaroundInitialize,
       Act.initOpDev 1, Act.setupBuffer Flavor.IBS_OP 1,
       Act.initFetchDev 1, Act.setupBuffer Flavor.IBS_FETCH 1,
       Act.initWorkaroundInitialize,
       Act.registerChrdev,
       Act.freeBuffer Flavor.IBS_FETCH 0, Act.freeBuffer Flavor.IBS_OP 0,
       Act.freeBuffer Flavor.IBS_FETCH 1, Act.freeBuffer Flavor.IBS_OP 1,
       Act.freePercpuFetch, Act.freePercpuOp] := by
  decide

/-- The buffer-setup loop performs no device-node creations. -/
theorem setup_buffers_loop_no_creates (sbe : Flavor → Nat → Int) (l : List Nat)
    (f : Flavor) (c : Nat) (e : Int) :
    Act.deviceCreate f c e ∉ (setup_buffers_loop sbe l).2 := by
  induction l with
  | nil => simp [setup_buffers_loop]
  | cons cpu rest ih =>
    unfold setup_buffers_loop
    dsimp only
    split
    · simp
    · split
      · simp
      · simp [ih]

/-- The `out_buffers` unwind performs no device-node creations. -/
theorem out_buffers_trace_no_creates (possible : List Nat)
    (f : Flavor) (c : Nat) (e : Int) :
    Act.deviceCreate f c e ∉ out_buffers_trace possible := by
  simp [out_buffers_trace]

/-- The `out_class` unwind performs no device-node creations. -/
theorem out_class_trace_no_creates (online : List Nat)
    (f : Flavor) (c : Nat) (e : Int) :
    Act.deviceCreate f c e ∉ out_class_trace online := by
  simp [out_class_trace]

/-- With op sampling unsupported, the device-creation loop never creates
an op node. -/
theorem create_devices_loop_no_op_creates (g : Globals) (dce : Flavor → Nat → Int)
    (hop : g.ibs_op_supported = 0) (l : List Nat) (c : Nat) (e : Int) :
    Act.deviceCreate Flavor.IBS_OP c e ∉ (create_devices_loop g dce l).2 := by
  induction l with
  | nil => simp [create_devices_loop]
  | cons cpu rest ih =>
    unfold create_devices_loop
    dsimp only
    by_cases hf : g.ibs_fetch_supported = 0
    · simp [hop, hf, ih]
    · by_cases he : dce Flavor.IBS_FETCH cpu = 0
      · simp [hop, hf, he, ih]
      · simp [hop, hf, he]

/-- With fetch sampling unsupported, the device-creation loop never
creates a fetch node. -/
theorem create_devices_loop_no_fetch_creates (g : Globals) (dce : Flavor → Nat → Int)
    (hfe : g.ibs_fetch_supported = 0) (l : List Nat) (c : Nat) (e : Int) :
    Act.deviceCreate Flavor.IBS_FETCH c e ∉ (create_devices_loop g dce l).2 := by
  induction l with
  | nil => simp [create_devices_loop]
  | cons cpu rest ih =>
    unfold create_devices_loop
    dsimp only
    by_cases hop : g.ibs_op_supported = 0
    · simp [hop, hfe, ih]
    · by_cases he : dce Flavor.IBS_OP cpu = 0
      · simp [hop, hfe, he, ih]
      · simp [hop, hfe, he]

/-- With op sampling unsupported, no phase of `ibs_init` after the
capability check creates an op node. -/
theorem ibs_init_after_check_no_op_creates (env : InitEnv) (g : Globals)
    (hop : g.ibs_op_supported = 0) (c : Nat) (e : Int) :
    Act.deviceCreate Flavor.IBS_OP c e ∉ (ibs_init_after_check env g).2 := by
  unfold ibs_init_after_check
  dsimp only
  split_ifs <;>
    simp [out_buffers_trace_no_creates, out_class_trace_no_creates,
          setup_buffers_loop_no_creates,
          create_devices_loop_no_op_creates g env.device_create_err hop]

/-- With fetch sampling unsupported, no phase of `ibs_init` after the
capability check creates a fetch node. -/
theorem ibs_init_after_check_no_fetch_creates (env : InitEnv) (g : Globals)
    (hfe : g.ibs_fetch_supported = 0) (c : Nat) (e : Int) :
    Act.deviceCreate Flavor.IBS_FETCH c e ∉ (ibs_init_after_check env g).2 := by
  unfold ibs_init_after_check
  dsimp only
  split_ifs <;>
    simp [out_buffers_trace_no_creates, out_class_trace_no_creates,
          setup_buffers_loop_no_creates,
          create_devices_loop_no_fetch_creates g env.device_create_err hfe]

/-- `ibs_init` always reports the globals the capability check left
behind. -/
theorem ibs_init_globals_eq (env : InitEnv) :
    (ibs_init env).2.1 = (check_for_ibs_support env.probe initialGlobals).2.1 := by
  unfold ibs_init
  dsimp only
  split <;> rfl

/-- C10: handle creation is asymmetric between startup and hot-plug.
At module initialisation a flavor's node is created for a core only when
that flavor is in the capability set (so with the flavor unsupported no
such creation ever appears in the init trace), whereas the hot-plug
prepare path attempts the op creation and — once it succeeds — the fetch
creation regardless of the capability flags, and the hot-plug removal
path destroys both flavors' nodes unconditionally. -/
theorem C10_handle_creation_asymmetry :
    (∀ (env : InitEnv) (c : Nat) (e : Int),
      ((ibs_init env).2.1.ibs_op_supported = 0 →
        Act.deviceCreate Flavor.IBS_OP c e ∉ (ibs_init env).2.2) ∧
      ((ibs_init env).2.1.ibs_fetch_supported = 0 →
        Act.deviceCreate Flavor.IBS_FETCH c e ∉ (ibs_init env).2.2)) ∧
    (∀ (g : Globals) (henv : HotplugEnv) (opDev fetchDev : IbsDev) (cpu : Nat),
      Act.deviceCreate Flavor.IBS_OP cpu (henv.device_create_err Flavor.IBS_OP cpu) ∈
        (ibs_class_cpu_callback g henv opDev fetchDev HotplugEvent.CPU_UP_PREPARE cpu).2.1 ∧
      (henv.device_create_err Flavor.IBS_OP cpu = 0 →
        Act.deviceCreate Flavor.IBS_FETCH cpu (henv.device_create_err Flavor.IBS_FETCH cpu) ∈
          (ibs_class_cpu_callback g henv opDev fetchDev HotplugEvent.CPU_UP_PREPARE cpu).2.1)) ∧
    (∀ (g : Globals) (henv : HotplugEnv) (opDev fetchDev : IbsDev) (cpu : Nat),
      (ibs_class_cpu_callback g henv opDev fetchDev HotplugEvent.CPU_UP_CANCELED cpu).2.1 =
        [Act.deviceDestroy Flavor.IBS_OP cpu, Act.deviceDestroy Flavor.IBS_FETCH cpu] ∧
      (ibs_class_cpu_callback g henv opDev fetchDev HotplugEvent.CPU_DEAD cpu).2.1 =
        [Act.deviceDestroy Flavor.IBS_OP cpu, Act.deviceDestroy Flavor.IBS_FETCH cpu]) := by
  refine ⟨fun env c e => ⟨fun hop => ?noOp, fun hfe => ?noFetch⟩,
          fun g henv opDev fetchDev cpu => ⟨?opIn, fun he1 => ?fetchIn⟩,
          fun g henv opDev fetchDev cpu => ⟨rfl, rfl⟩⟩
  case noOp =>
    rw [ibs_init_globals_eq] at hop
    unfold ibs_init
    dsimp only
    split
    · intro hmem
      rcases check_trace_only_workarounds env.probe initialGlobals _ hmem with ⟨cc, hcc⟩
      simp at hcc
    · intro hmem
      rcases List.mem_append.mp hmem with hmem | hmem
      · rcases check_trace_only_workarounds env.probe initialGlobals _ hmem with ⟨cc, hcc⟩
        simp at hcc
      · exact ibs_init_after_check_no_op_creates env _ hop c e hmem
  case noFetch =>
    rw [ibs_init_globals_eq] at hfe
    unfold ibs_init
    dsimp only
    split
    · intro hmem
      rcases check_trace_only_workarounds env.probe initialGlobals _ hmem with ⟨cc, hcc⟩
      simp at hcc
    · intro hmem
      rcases List.mem_append.mp hmem with hmem | hmem
      · rcases check_trace_only_workarounds env.probe initialGlobals _ hmem with ⟨cc, hcc⟩
        simp at hcc
      · exact ibs_init_after_check_no_fetch_creates env _ hfe c e hmem
  case opIn =>
    by_cases he1 : henv.device_create_err Flavor.IBS_OP cpu = 0 <;>
      by_cases he2 : henv.device_create_err Flavor.IBS_FETCH cpu = 0 <;>
        simp [ibs_class_cpu_callback, he1, he2]
  case fetchIn =>
    by_cases he2 : henv.device_create_err Flavor.IBS_FETCH cpu = 0 <;>
      simp [ibs_class_cpu_callback, he1, he2]

/-- An environment whose processor supports only fetch sampling
(CPUID_Fn8000_001B EAX = 0b11: flags valid, fetch bit set, op bits
clear), with everything else succeeding. -/
def fetchOnlyEnv : InitEnv :=
  { probe :=
      { x86_vendor := 2
        x86 := 0x16
        x86_model := 0
        cpuid_ecx_8000_0001 := 1 <<< 10
        cpuid_eax_8000_001B := 3
        online_cpus := [0] }
    op_alloc_ok := true
    fetch_alloc_ok := true
    workaround_structs_ok := true
    setup_buffer_err := fun _ _ => 0
    chrdev_major := 240
    class_err := 0
    device_create_err := fun _ _ => 0
    nmi_err := 0
    possible_cpus := [0] }

/-- A hot-plug environment where every creation succeeds. -/
def okCreateEnv : HotplugEnv :=
  { device_create_err := fun _ _ => 0 }

/-- C10 witness: on a fetch-only processor module init never creates an
op node, while the hot-plug prepare path on core 5 creates both flavors'
nodes even under globals with both support flags zero, and a cancel on
core 5 destroys both. -/
theorem C10_handle_creation_asymmetry_witness :
    Act.deviceCreate Flavor.IBS_OP 0 0 ∉ (ibs_init fetchOnlyEnv).2.2 ∧
    Act.deviceCreate Flavor.IBS_OP 5 0 ∈
      (ibs_class_cpu_callback initialGlobals okCreateEnv sampleDev sampleDev
        HotplugEvent.CPU_UP_PREPARE 5).2.1 ∧
    Act.deviceCreate Flavor.IBS_FETCH 5 0 ∈
      (ibs_class_cpu_callback initialGlobals okCreateEnv sampleDev sampleDev
        HotplugEvent.CPU_UP_PREPARE 5).2.1 ∧
    (ibs_class_cpu_callback initialGlobals okCreateEnv sampleDev sampleDev
        HotplugEvent.CPU_UP_CANCELED 5).2.1 =
      [Act.deviceDestroy Flavor.IBS_OP 5, Act.deviceDestroy Flavor.IBS_FETCH 5] := by
  have h := C10_handle_creation_asymmetry
  refine ⟨(h.1 fetchOnlyEnv 0 0).1 (by decide), ?p2, ?p3,
          (h.2.2 initialGlobals okCreateEnv sampleDev sampleDev 5).1⟩
  case p2 => exact (h.2.1 initialGlobals okCreateEnv sampleDev sampleDev 5).1
  case p3 => exact (h.2.1 initialGlobals okCreateEnv sampleDev sampleDev 5).2 rfl
